import Mathlib

/-!
Verification development for the `data-insight-generator` repository: a
shallow embedding in Lean of the `DataAnalyser` class (`src/analyser.py`)
and the `ReportGenerator` class (`src/report_generator.py`), together with
theorems settling the specification claims about them.

Modelling conventions.

* A pandas `DataFrame` is modelled as an ordered list of named columns,
  each with a declared storage dtype and an ordered list of cells.  A null
  cell (`NaN` / `None` / `NaT`) is `Option.none`.
* Python floats are modelled by exact rationals `ℚ`; a statistic whose
  float value is `NaN` is modelled as `Option.none`.  numpy never raises
  on the divisions performed here: an integer-scalar division by zero
  yields `NaN` (the module globally suppresses the accompanying runtime
  warning), which is why zero-row percentages are `none` rather than an
  error.
* Statistics whose float value is an irrational real (the standard
  deviation and the skewness, which involve square roots) are carried by
  sign-preserving squares, which determine them uniquely; all other
  statistics are exact rationals.
* `datetime64` cell payloads are modelled as integers (epoch ticks); the
  analyser never inspects them beyond equality and null-ness.
-/

/-- Storage dtype of a column, as used by `select_dtypes` in
`DataAnalyser.__init__`: `np.number` (int/float), `object` (strings), or
`datetime64`.  The spec's Table data model admits exactly these three
value kinds. -/
inductive DType
  | numeric
  | object
  | datetime64
deriving DecidableEq

/-- A non-null cell payload. -/
inductive Value
  | num (q : ℚ)
  | str (s : String)
  | time (t : Int)
deriving DecidableEq

/-- A named column: declared dtype plus ordered cells (`none` = null). -/
structure Column where
  name : String
  dtype : DType
  values : List (Option Value)
deriving DecidableEq

/-- An in-memory table: an ordered sequence of named columns. -/
structure DataFrame where
  cols : List Column
deriving DecidableEq

/-- `len(df)` / `df.shape[0]`: the row count (all columns of a pandas
frame have this length). -/
def DataFrame.nRows (df : DataFrame) : Nat :=
  match df.cols with
  | [] => 0
  | c :: _ => c.values.length

/-- Well-formedness of a table as pandas guarantees it after `read_csv`:
rectangular (every column has the row count) and mangled-unique column
names. -/
def DataFrame.WF (df : DataFrame) : Prop :=
  (∀ c ∈ df.cols, c.values.length = df.nRows) ∧ (df.cols.map Column.name).Nodup

instance (df : DataFrame) : Decidable df.WF := by
  unfold DataFrame.WF; infer_instance

/-- `df.select_dtypes(include=[np.number])`: the numeric columns, in
table order. -/
def numericCols (df : DataFrame) : List Column :=
  df.cols.filter (fun c => c.dtype = DType.numeric)

/-- `df.select_dtypes(include=['object'])`: the categorical columns. -/
def categoricalCols (df : DataFrame) : List Column :=
  df.cols.filter (fun c => c.dtype = DType.object)

/-- `df.select_dtypes(include=['datetime64'])`: the temporal columns. -/
def datetimeCols (df : DataFrame) : List Column :=
  df.cols.filter (fun c => c.dtype = DType.datetime64)

/-- Numeric payload of a cell, if any. -/
def valNum : Value → Option ℚ
  | Value.num q => some q
  | _ => none

/-- String payload of a cell, if any. -/
def valStr : Value → Option String
  | Value.str s => some s
  | _ => none

/-- The cells of a column viewed as a float series (`self.df[col]` for a
numeric column): numeric payloads, with `none` for nulls. -/
def Column.numCells (c : Column) : List (Option ℚ) :=
  c.values.map (fun v => v.bind valNum)

/-- The non-null string payloads of a column, in order. -/
def Column.strCells (c : Column) : List String :=
  c.values.filterMap (fun v => v.bind valStr)

/-- `series.isnull().sum()` for one column. -/
def missingCount (c : Column) : Nat :=
  c.values.countP (fun v => v.isNone)

/-- Row `i` of the table, as the tuple of its cells. -/
def DataFrame.row (df : DataFrame) (i : Nat) : List (Option Value) :=
  df.cols.map (fun c => c.values.getD i none)

/-- `df.duplicated().sum()`: with the default `keep='first'`, a row is
counted when an identical row occurs earlier (pandas treats nulls as
equal here). -/
def duplicateRowCount (df : DataFrame) : Nat :=
  (List.range df.nRows).countP (fun i => decide (∃ j ∈ List.range i, df.row j = df.row i))

/-- The record returned by `DataAnalyser.basic_info` (the
`memory_usage` entry, a byte count of the process-level representation,
is memory-layout information outside the model). -/
structure BasicInfo where
  shape : Nat × Nat
  columns : List String
  dtypes : List (String × DType)
  missing_values : List (String × Nat)
  duplicate_rows : Nat
deriving DecidableEq

/-- `DataAnalyser.basic_info`. -/
def basic_info (df : DataFrame) : BasicInfo :=
  { shape := (df.nRows, df.cols.length)
    columns := df.cols.map Column.name
    dtypes := df.cols.map (fun c => (c.name, c.dtype))
    missing_values := df.cols.map (fun c => (c.name, missingCount c))
    duplicate_rows := duplicateRowCount df }

/-- Linear-interpolation quantile of an already sorted list, as
`numpy`/pandas compute it (`interpolation='linear'`): at fractional
position `q * (n - 1)`.  `none` on empty input (pandas yields `NaN`). -/
def quantileSorted (s : List ℚ) (q : ℚ) : Option ℚ :=
  match s.length with
  | 0 => none
  | Nat.succ m =>
    let pos : ℚ := q * (m : ℚ)
    let lo : Nat := (⌊pos⌋).toNat
    let hi : Nat := min (lo + 1) m
    let va := s.getD lo 0
    let vb := s.getD hi 0
    some (va + (pos - (lo : ℚ)) * (vb - va))

/-- `series.quantile(q)`: pandas drops nulls, sorts, then interpolates. -/
def quantile (xs : List ℚ) (q : ℚ) : Option ℚ :=
  quantileSorted (xs.mergeSort (fun x y => decide (x ≤ y))) q

/-- The IQR fence pair `(Q1 - 1.5*IQR, Q3 + 1.5*IQR)` of
`DataAnalyser.detect_outliers`, `none` when the quantiles are `NaN`
(empty non-null data; all comparisons against `NaN` are then false). -/
def fences (xs : List ℚ) : Option (ℚ × ℚ) :=
  match quantile xs (1/4), quantile xs (3/4) with
  | some q1, some q3 => some (q1 - 3/2 * (q3 - q1), q3 + 3/2 * (q3 - q1))
  | _, _ => none

/-- One entry of the `DataAnalyser.detect_outliers` result. -/
structure OutlierInfo where
  count : Nat
  percentage : Option ℚ
deriving DecidableEq

/-- The per-column body of `DataAnalyser.detect_outliers`:
`((series < lower) | (series > upper)).sum()` — a null cell compares
false on both sides — and `count / len(df) * 100`, which is `NaN` for a
zero-row table. -/
def outlierStat (cells : List (Option ℚ)) (nRows : Nat) : OutlierInfo :=
  let cnt :=
    match fences (cells.filterMap id) with
    | some (lb, ub) =>
        cells.countP (fun cell => cell.elim false (fun v => decide (v < lb) || decide (v > ub)))
    | none => 0
  { count := cnt
    percentage := if nRows = 0 then none else some ((cnt : ℚ) / (nRows : ℚ) * 100) }

/-- `DataAnalyser.detect_outliers`: one entry per numeric column, in
classification order. -/
def detect_outliers (df : DataFrame) : List (String × OutlierInfo) :=
  (numericCols df).map (fun c => (c.name, outlierStat c.numCells df.nRows))

/-- Per-column row of `DataAnalyser.numerical_summary` (`describe()`
plus `skew()` and `kurtosis()`).  The standard deviation and the
skewness involve a square root and are carried by their (for skewness,
sign-preserving) squares, which determine the real values uniquely:
`std = sqrt varianceDdof1` and `skew = sgn * sqrt |skewSignedSq|`. -/
structure NumColSummary where
  count : Nat
  mean : Option ℚ
  varianceDdof1 : Option ℚ
  minVal : Option ℚ
  q25 : Option ℚ
  q50 : Option ℚ
  q75 : Option ℚ
  maxVal : Option ℚ
  skewSignedSq : Option ℚ
  kurtosis : Option ℚ
deriving DecidableEq

/-- Summary statistics of one numeric column over its non-null values,
with pandas edge behaviour: statistics needing at least `k` values are
`NaN` below that count, and the bias-adjusted skewness/kurtosis
estimators return 0 on zero variance. -/
def numSummaryOfCol (cells : List (Option ℚ)) : NumColSummary :=
  let xs := cells.filterMap id
  let n := xs.length
  let s := xs.mergeSort (fun x y => decide (x ≤ y))
  if n = 0 then
    { count := 0, mean := none, varianceDdof1 := none, minVal := none,
      q25 := none, q50 := none, q75 := none, maxVal := none,
      skewSignedSq := none, kurtosis := none }
  else
    let mu := xs.sum / (n : ℚ)
    let m2 := (xs.map (fun x => (x - mu) ^ 2)).sum
    let m3 := (xs.map (fun x => (x - mu) ^ 3)).sum
    let m4 := (xs.map (fun x => (x - mu) ^ 4)).sum
    { count := n
      mean := some mu
      varianceDdof1 := if 2 ≤ n then some (m2 / ((n : ℚ) - 1)) else none
      minVal := s.head?
      q25 := quantileSorted s (1/4)
      q50 := quantileSorted s (1/2)
      q75 := quantileSorted s (3/4)
      maxVal := s.getLast?
      skewSignedSq :=
        if n < 3 then none
        else if m2 = 0 then some 0
        else some ((if m3 < 0 then (-1 : ℚ) else 1) *
          ((n : ℚ) * ((n : ℚ) - 1) * m3 ^ 2) / (((n : ℚ) - 2) ^ 2 * m2 ^ 3))
      kurtosis :=
        if n < 4 then none
        else if m2 = 0 then some 0
        else some ((n : ℚ) * ((n : ℚ) + 1) * ((n : ℚ) - 1) * m4 /
            (((n : ℚ) - 2) * ((n : ℚ) - 3) * m2 ^ 2)
          - 3 * ((n : ℚ) - 1) ^ 2 / (((n : ℚ) - 2) * ((n : ℚ) - 3))) }

/-- `DataAnalyser.numerical_summary`: `None` when there is no numeric
column, otherwise one summary per numeric column. -/
def numerical_summary (df : DataFrame) : Option (List (String × NumColSummary)) :=
  if numericCols df = [] then none
  else some ((numericCols df).map (fun c => (c.name, numSummaryOfCol c.numCells)))

/-- Distinct elements in order of first appearance (the order pandas
`value_counts` uses to break frequency ties). -/
def firstSeenDistinct (xs : List String) : List String :=
  xs.foldl (fun acc v => if v ∈ acc then acc else acc ++ [v]) []

/-- `series.value_counts()` over the non-null values: pairs
`(value, frequency)` sorted by descending frequency, ties kept in
first-appearance order (stable sort). -/
def value_counts (xs : List String) : List (String × Nat) :=
  ((firstSeenDistinct xs).map (fun v => (v, xs.count v))).mergeSort
    (fun p q => decide (q.2 ≤ p.2))

/-- One entry of the `DataAnalyser.categorical_summary` result. -/
structure CatColSummary where
  unique_count : Nat
  top_values : List (String × Nat)
  missing_percentage : Option ℚ
deriving DecidableEq

/-- Per-column body of `categorical_summary`: `nunique()` (non-null
distinct count), `value_counts().head(10)`, and the missing percentage
over `len(df)` (NaN on a zero-row table). -/
def catSummaryOfCol (c : Column) (nRows : Nat) : CatColSummary :=
  { unique_count := (firstSeenDistinct c.strCells).length
    top_values := (value_counts c.strCells).take 10
    missing_percentage :=
      if nRows = 0 then none else some ((missingCount c : ℚ) / (nRows : ℚ) * 100) }

/-- `DataAnalyser.categorical_summary`: `None` when there is no
categorical column, otherwise one summary per categorical column. -/
def categorical_summary (df : DataFrame) : Option (List (String × CatColSummary)) :=
  if categoricalCols df = [] then none
  else some ((categoricalCols df).map (fun c => (c.name, catSummaryOfCol c df.nRows)))

/-- The `DataAnalyser` object state: the retained table copy and the
three column-name classification lists computed in `__init__`. -/
structure DataAnalyser where
  df : DataFrame
  numeric_cols : List String
  categorical_cols : List String
  datetime_cols : List String
deriving DecidableEq

/-- `DataAnalyser.__init__`: stores `df.copy()` (value semantics here)
and classifies the columns by declared dtype, once. -/
def DataAnalyser.make (df : DataFrame) : DataAnalyser :=
  { df := df
    numeric_cols := (numericCols df).map Column.name
    categorical_cols := (categoricalCols df).map Column.name
    datetime_cols := (datetimeCols df).map Column.name }

/-- The clock readings taken during one `generate_html_report` call
(`datetime.now()` formatted three ways: report title at minute
resolution, generated-at line at second resolution, default file name
stamp). -/
structure Timestamp where
  ymdHM : String
  ymdHMS : String
  pathStamp : String
deriving DecidableEq

/-- `ReportGenerator.create_visualizations`, modelled at the level of
the mapping it returns: the figure pixels are opaque and the two
base64 payloads are taken as parameters; the keys and their presence
conditions follow the source (correlation heatmap only with more than
one numeric column, distribution grid only with at least one). -/
def create_visualizations (a : DataAnalyser) (corrImg distImg : String) :
    List (String × String) :=
  (if 1 < a.numeric_cols.length then [("correlation", corrImg)] else [])
    ++ (if a.numeric_cols ≠ [] then [("distributions", distImg)] else [])

/-- Digit grouping of Python format `:,` on a reversed digit list:
a comma after every three digits from the right. -/
def commaGroupRev : List Char → List Char
  | c1 :: c2 :: c3 :: c4 :: rest => c1 :: c2 :: c3 :: ',' :: commaGroupRev (c4 :: rest)
  | l => l

/-- Python format spec `:,` for a nonnegative integer: decimal digits
with thousands separators. -/
def formatComma (n : Nat) : String :=
  ((commaGroupRev (toString n).toList.reverse).reverse).asString

/-- Left-pad with zeros to `d` characters. -/
def padLeftZeros (d : Nat) (s : String) : String :=
  (List.replicate (d - s.length) '0').asString ++ s

/-- Python format spec `:.df` on a possibly-NaN value: `NaN` prints as
the literal `nan`; otherwise fixed-point with `d` decimals.  Rounding
is modelled half-up on the exact rational (CPython rounds the nearest
binary double half-to-even; no claim depends on the tie direction). -/
def fmtFixed (d : Nat) (x : Option ℚ) : String :=
  match x with
  | none => "nan"
  | some q =>
    let n : Int := ⌊q * (10 : ℚ) ^ d + 1/2⌋
    let m := n.natAbs
    (if n < 0 then "-" else "") ++ toString (m / 10 ^ d) ++ "." ++
      padLeftZeros d (toString (m % 10 ^ d))

/-- Rendering of one statistic cell in the numeric summary table
(stand-in for the float rendering inside pandas `to_html`; exact
rationals are shown as fractions). -/
def statCell (x : Option ℚ) : String :=
  match x with
  | none => "NaN"
  | some q => toString q.num ++ (if q.den = 1 then "" else "/" ++ toString q.den)

/-- One row of the rendered numeric summary table. -/
def summaryRow (label : String) (cells : List String) : String :=
  "<tr><th>" ++ label ++ "</th>" ++
    String.join (cells.map (fun s => "<td>" ++ s ++ "</td>")) ++ "</tr>"

/-- Stand-in for `numeric_summary.to_html(classes="")`: a table with one
column per numeric field and one row per statistic, in `describe()`
order followed by the two appended moment rows. -/
def summaryToHtml (ns : List (String × NumColSummary)) : String :=
  "<table border=\"1\" class=\"dataframe\"><thead><tr><th></th>" ++
    String.join (ns.map (fun p => "<th>" ++ p.1 ++ "</th>")) ++ "</tr></thead><tbody>" ++
    summaryRow "count" (ns.map (fun p => toString p.2.count)) ++
    summaryRow "mean" (ns.map (fun p => statCell p.2.mean)) ++
    summaryRow "std" (ns.map (fun p => statCell p.2.varianceDdof1)) ++
    summaryRow "min" (ns.map (fun p => statCell p.2.minVal)) ++
    summaryRow "25%" (ns.map (fun p => statCell p.2.q25)) ++
    summaryRow "50%" (ns.map (fun p => statCell p.2.q50)) ++
    summaryRow "75%" (ns.map (fun p => statCell p.2.q75)) ++
    summaryRow "max" (ns.map (fun p => statCell p.2.maxVal)) ++
    summaryRow "skewness" (ns.map (fun p => statCell p.2.skewSignedSq)) ++
    summaryRow "kurtosis" (ns.map (fun p => statCell p.2.kurtosis)) ++
    "</tbody></table>"

/-- Document head up to the title timestamp. -/
def hdrPre : String :=
  "\n        <!DOCTYPE html>\n        <html>\n        <head>\n            <title>EDA Report - "

/-- Inline stylesheet and opening of the body, between the title
timestamp and the generated-at timestamp (literal braces written as
character escapes). -/
def hdrCss : String :=
  "</title>\n            <style>\n                body \x7b font-family: Arial, sans-serif; margin: 40px; background-color: #f5f5f5; \x7d\n                .container \x7b max-width: 1200px; margin: 0 auto; background: white; padding: 30px; border-radius: 10px; box-shadow: 0 0 10px rgba(0,0,0,0.1); \x7d\n                h1, h2, h3 \x7b color: #333; \x7d\n                .metric \x7b display: inline-block; margin: 10px; padding: 15px; background: #e8f4f8; border-radius: 5px; min-width: 150px; text-align: center; \x7d\n                .metric-value \x7b font-size: 24px; font-weight: bold; color: #2c3e50; \x7d\n                .metric-label \x7b font-size: 14px; color: #7f8c8d; \x7d\n                table \x7b border-collapse: collapse; width: 100%; margin: 20px 0; \x7d\n                th, td \x7b border: 1px solid #ddd; padding: 12px; text-align: left; \x7d\n                th \x7b background-color: #f2f2f2; \x7d\n                .plot-container \x7b text-align: center; margin: 30px 0; \x7d\n                .plot-container img \x7b max-width: 100%; height: auto; border-radius: 8px; box-shadow: 0 4px 8px rgba(0,0,0,0.1); \x7d\n                .warning \x7b background-color: #fff3cd; border: 1px solid #ffeaa7; color: #856404; padding: 10px; border-radius: 5px; margin: 10px 0; \x7d\n            </style>\n        </head>\n        <body>\n            <div class=\"container\">\n                <h1>Automated EDA Report</h1>\n                <p><strong>Generated:</strong> "

/-- Tail of the header after the generated-at timestamp. -/
def hdrPost : String := "</p>\n                "

/-- Fixed HTML of the report head, around the two embedded
`datetime.now()` renderings. -/
def htmlHeader (ts : Timestamp) : String :=
  hdrPre ++ ts.ymdHM ++ hdrCss ++ ts.ymdHMS ++ hdrPost

/-- Overview markup before the row count. -/
def ovA : String :=
  "\n                <h2>Dataset Overview</h2>\n                <div>\n                    <div class=\"metric\">\n                        <div class=\"metric-value\">"

/-- Overview markup between the row count and the column count. -/
def ovB : String :=
  "</div>\n                        <div class=\"metric-label\">Rows</div>\n                    </div>\n                    <div class=\"metric\">\n                        <div class=\"metric-value\">"

/-- Overview markup between the column count and the missing total. -/
def ovC : String :=
  "</div>\n                        <div class=\"metric-label\">Columns</div>\n                    </div>\n                    <div class=\"metric\">\n                        <div class=\"metric-value\">"

/-- Overview markup between the missing total and the duplicate count. -/
def ovD : String :=
  "</div>\n                        <div class=\"metric-label\">Missing Values</div>\n                    </div>\n                    <div class=\"metric\">\n                        <div class=\"metric-value\">"

/-- Overview markup after the duplicate count. -/
def ovE : String :=
  "</div>\n                        <div class=\"metric-label\">Duplicates</div>\n                    </div>\n                </div>\n        "

/-- `sum(basic_info['missing_values'].values())`. -/
def totalMissing (bi : BasicInfo) : Nat :=
  (bi.missing_values.map Prod.snd).sum

/-- The four-metric Dataset Overview block: rows (comma-grouped),
columns (plain), total missing (comma-grouped), duplicates
(comma-grouped). -/
def overviewBlock (bi : BasicInfo) : String :=
  ovA ++ formatComma bi.shape.1 ++ ovB ++ toString bi.shape.2 ++ ovC ++
    formatComma (totalMissing bi) ++ ovD ++ formatComma bi.duplicate_rows ++ ovE

/-- The conditional missing-data warning block. -/
def warningBlock (bi : BasicInfo) : String :=
  if 0 < totalMissing bi then
    "\n                <div class=\"warning\">\n                    <strong>Warning:</strong> This dataset contains missing values. Consider data cleaning strategies.\n                </div>\n            "
  else ""

/-- The numeric summary section, present iff `numerical_summary`
returned a table. -/
def numericBlock (ns : Option (List (String × NumColSummary))) : String :=
  match ns with
  | none => ""
  | some s =>
    "\n                <h2>Numerical Columns Summary</h2>\n                <div style=\"overflow-x: auto;\">\n            "
      ++ summaryToHtml s ++ "</div>"

/-- One per-column section of the categorical summary (top-5 of the
stored top-10, missing percentage at one decimal). -/
def catSection (p : String × CatColSummary) : String :=
  "\n                    <h3>" ++ p.1 ++ "</h3>\n                    <p>Unique values: " ++
    toString p.2.unique_count ++ " | Missing: " ++ fmtFixed 1 p.2.missing_percentage ++
    "%</p>\n                    <p>Top values:</p>\n                    <ul>\n                " ++
    String.join ((p.2.top_values.take 5).map
      (fun vc => "<li>" ++ vc.1 ++ ": " ++ toString vc.2 ++ "</li>")) ++
    "</ul>"

/-- The categorical summary section (`if categorical_summary:` — absent
when the summary is `None`; the dict is never empty when present). -/
def categoricalBlock (cs : Option (List (String × CatColSummary))) : String :=
  match cs with
  | none => ""
  | some entries =>
    "<h2>Categorical Columns Summary</h2>" ++ String.join (entries.map catSection)

/-- One row of the outlier table (percentage at two decimals). -/
def outlierRow (p : String × OutlierInfo) : String :=
  "\n                    <tr>\n                        <td>" ++ p.1 ++
    "</td>\n                        <td>" ++ toString p.2.count ++
    "</td>\n                        <td>" ++ fmtFixed 2 p.2.percentage ++
    "%</td>\n                    </tr>\n                "

/-- The outlier section (`if outliers:` — absent when the dict is
empty, i.e. when there is no numeric column). -/
def outlierBlock (outl : List (String × OutlierInfo)) : String :=
  if outl = [] then ""
  else
    "<h2>Outlier Detection</h2><table><tr><th>Column</th><th>Outlier Count</th><th>Percentage</th></tr>"
      ++ String.join (outl.map outlierRow) ++ "</table>"

/-- The embedded correlation image section. -/
def corrSection (img : String) : String :=
  "\n                <h2>Correlation Analysis</h2>\n                <div class=\"plot-container\">\n                    <img src=\"data:image/png;base64," ++
    img ++ "\" alt=\"Correlation Matrix\">\n                </div>\n            "

/-- The embedded distributions image section. -/
def distSection (img : String) : String :=
  "\n                <h2>Data Distributions</h2>\n                <div class=\"plot-container\">\n                    <img src=\"data:image/png;base64," ++
    img ++ "\" alt=\"Data Distributions\">\n                </div>\n            "

/-- The two conditional image sections (`if 'correlation' in plots:`,
`if 'distributions' in plots:`). -/
def plotsBlock (plots : List (String × String)) : String :=
  (match plots.lookup "correlation" with
   | some img => corrSection img
   | none => "") ++
  (match plots.lookup "distributions" with
   | some img => distSection img
   | none => "")

/-- Closing markup of the document. -/
def htmlFooter : String := "\n            </div>\n        </body>\n        </html>\n        "

/-- Assembly of the HTML document from the analysis results, exactly in
source order: header, overview metrics, conditional warning, numeric
summary, categorical sections, outlier table, images, footer. -/
def renderReport (bi : BasicInfo) (ns : Option (List (String × NumColSummary)))
    (cs : Option (List (String × CatColSummary))) (outl : List (String × OutlierInfo))
    (plots : List (String × String)) (ts : Timestamp) : String :=
  htmlHeader ts ++ overviewBlock bi ++ warningBlock bi ++ numericBlock ns ++
    categoricalBlock cs ++ outlierBlock outl ++ plotsBlock plots ++ htmlFooter

/-- The HTML document content produced by
`ReportGenerator.generate_html_report` for an analyser built from
`df`, at clock reading `ts`, with the two rendered figure payloads. -/
def generate_html_content (df : DataFrame) (ts : Timestamp) (corrImg distImg : String) :
    String :=
  renderReport (basic_info df) (numerical_summary df) (categorical_summary df)
    (detect_outliers df) (create_visualizations (DataAnalyser.make df) corrImg distImg) ts

/-- `os.path.dirname` for POSIX paths: everything before the last
slash run, with trailing slashes stripped unless the head is all
slashes. -/
def posixDirname (p : String) : String :=
  let head := (p.toList.reverse.dropWhile (fun c => c ≠ '/')).reverse
  if head = [] then ""
  else if head.all (fun c => c = '/') then head.asString
  else ((head.reverse.dropWhile (fun c => c = '/')).reverse).asString

/-- `ReportGenerator.generate_html_report`: resolves the output path
(timestamped default under `outputs/` when none is given), then runs
`os.makedirs(os.path.dirname(output_path), exist_ok=True)` — which
raises `FileNotFoundError` on the empty string, before any analysis or
writing — and otherwise produces the path and document content that the
source writes to that path. -/
def generate_html_report (df : DataFrame) (ts : Timestamp) (corrImg distImg : String)
    (output_path : Option String) : Except String (String × String) :=
  let path :=
    match output_path with
    | none => "outputs/eda_report_" ++ ts.pathStamp ++ ".html"
    | some p => p
  if posixDirname path = "" then Except.error "FileNotFoundError"
  else Except.ok (path, generate_html_content df ts corrImg distImg)

/-- Substring-containment witnessed by an explicit split. -/
def ContainsSub (s pat : String) : Prop := ∃ pre post, s = pre ++ pat ++ post

/-- Numeric column `[1..9, 100]` from `test_outlier_detection`. -/
def colOutliers : Column :=
  ⟨"with_outliers", DType.numeric,
    ([1, 2, 3, 4, 5, 6, 7, 8, 9, 100] : List ℚ).map (fun q => some (Value.num q))⟩

/-- Numeric column `[1..10]` from `test_outlier_detection`. -/
def colNormal : Column :=
  ⟨"normal_data", DType.numeric,
    ([1, 2, 3, 4, 5, 6, 7, 8, 9, 10] : List ℚ).map (fun q => some (Value.num q))⟩

/-- Single-column table with an extreme value. -/
def dfOutliers : DataFrame := ⟨[colOutliers]⟩

/-- Single-column table with no extreme value. -/
def dfNormal : DataFrame := ⟨[colNormal]⟩

/-- A zero-variance-IQR numeric column: both quartiles are 5. -/
def colConst : Column :=
  ⟨"c", DType.numeric, ([5, 5, 5, 5, 7] : List ℚ).map (fun q => some (Value.num q))⟩

/-- Single-column table whose IQR is zero. -/
def dfConst : DataFrame := ⟨[colConst]⟩

/-- A table with one numeric column and zero rows. -/
def dfZeroRows : DataFrame := ⟨[⟨"n", DType.numeric, []⟩]⟩

/-- A table with one column of each dtype. -/
def dfMixed : DataFrame :=
  ⟨[⟨"age", DType.numeric, [some (Value.num 25)]⟩,
    ⟨"city", DType.object, [some (Value.str "NY")]⟩,
    ⟨"when", DType.datetime64, [some (Value.time 0)]⟩]⟩

/-- A table with no columns at all. -/
def dfEmpty : DataFrame := ⟨[]⟩

/-- Two single-column datetime tables that differ only in the stored
tick value — every analyser output agrees on them. -/
def dfTimeA : DataFrame := ⟨[⟨"when", DType.datetime64, [some (Value.time 0)]⟩]⟩

/-- Companion of `dfTimeA` with a different tick. -/
def dfTimeB : DataFrame := ⟨[⟨"when", DType.datetime64, [some (Value.time 86400)]⟩]⟩

/-- A numeric cell list containing a null. -/
def cellsWithNull : List (Option ℚ) := [some 1, some 2, some 3, some 4, none]

/-- One concrete clock reading. -/
def tsA : Timestamp := ⟨"2024-01-01 00:00", "2024-01-01 00:00:00", "20240101_000000"⟩

/-- A clock reading one minute after `tsA`. -/
def tsB : Timestamp := ⟨"2024-01-01 00:01", "2024-01-01 00:01:05", "20240101_000105"⟩

/-- Counting cells through the null-rejecting predicate equals counting
the non-null values: a null cell contributes to no count. -/
theorem countP_elim_filterMap (cells : List (Option ℚ)) (p : ℚ → Bool) :
    cells.countP (fun cell => cell.elim false p) = (cells.filterMap id).countP p := by
  induction cells with
  | nil => rfl
  | cons c t ih =>
    cases c with
    | none => simpa [List.countP_cons, List.filterMap_cons] using ih
    | some v => simp [List.countP_cons, List.filterMap_cons, ih]

/-- Membership in a dtype-filtered name list is exactly the existence of
a column of that dtype with that name. -/
theorem mem_dtype_names (df : DataFrame) (d : DType) (n : String) :
    (n ∈ (df.cols.filter (fun c => c.dtype = d)).map Column.name ↔
      ∃ c ∈ df.cols, c.dtype = d ∧ c.name = n) := by
  simp only [List.mem_map, List.mem_filter, decide_eq_true_eq]
  constructor
  · rintro ⟨c, ⟨hc, hd⟩, hn⟩
    exact ⟨c, hc, hd, hn⟩
  · rintro ⟨c, hc, hd, hn⟩
    exact ⟨c, ⟨hc, hd⟩, hn⟩

/-- An outlier statistic over an empty cell list counts nothing (the
quantiles of no data are NaN and every comparison against NaN is
false). -/
theorem outlierStat_nil_count (n : Nat) : (outlierStat [] n).count = 0 := by
  simp [outlierStat, fences, quantile, quantileSorted]

/-- C1: no Analyser operation raises. `basic_info`, `numerical_summary`,
`categorical_summary` and `detect_outliers` return a defined result for
every table: the shape is always the (rows, columns) pair, the outlier
report has exactly one entry per numeric column, the two summaries are
`none` exactly when their column class is empty and otherwise have one
entry per column of that class, and a zero-row table yields degenerate
but defined outputs — NaN (`none`) percentages and zero outlier
counts. -/
theorem analyser_operations_total (df : DataFrame) :
    (basic_info df).shape = (df.nRows, df.cols.length)
    ∧ (detect_outliers df).map Prod.fst = (numericCols df).map Column.name
    ∧ (numerical_summary df = none ↔ numericCols df = [])
    ∧ (∀ l, numerical_summary df = some l →
        l.map Prod.fst = (numericCols df).map Column.name)
    ∧ (categorical_summary df = none ↔ categoricalCols df = [])
    ∧ (∀ l, categorical_summary df = some l →
        l.map Prod.fst = (categoricalCols df).map Column.name)
    ∧ (df.nRows = 0 →
        (∀ p ∈ detect_outliers df, p.2.percentage = none)
        ∧ (∀ l, categorical_summary df = some l → ∀ p ∈ l, p.2.missing_percentage = none))
    ∧ (df.WF → df.nRows = 0 → ∀ p ∈ detect_outliers df, p.2.count = 0) := by
  refine ⟨rfl, ?_, ?_, ?_, ?_, ?_, ?_, ?_⟩
  · simp [detect_outliers, List.map_map, Function.comp]
  · by_cases h : numericCols df = [] <;> simp [numerical_summary, h]
  · intro l hl
    by_cases h : numericCols df = []
    · simp [numerical_summary, h] at hl
    · simp only [numerical_summary, h, if_false] at hl
      injection hl with hl
      subst hl
      simp [List.map_map, Function.comp]
  · by_cases h : categoricalCols df = [] <;> simp [categorical_summary, h]
  · intro l hl
    by_cases h : categoricalCols df = []
    · simp [categorical_summary, h] at hl
    · simp only [categorical_summary, h, if_false] at hl
      injection hl with hl
      subst hl
      simp [List.map_map, Function.comp]
  · intro h0
    constructor
    · intro p hp
      obtain ⟨c, _, rfl⟩ := List.mem_map.mp hp
      simp [outlierStat, h0]
    · intro l hl p hp
      by_cases h : categoricalCols df = []
      · simp [categorical_summary, h] at hl
      · simp only [categorical_summary, h, if_false] at hl
        injection hl with hl
        subst hl
        obtain ⟨c, _, rfl⟩ := List.mem_map.mp hp
        simp [catSummaryOfCol, h0]
  · intro hwf h0 p hp
    obtain ⟨c, hc, rfl⟩ := List.mem_map.mp hp
    have hmem : c ∈ df.cols := (List.mem_filter.mp hc).1
    have hlen : c.values.length = 0 := (hwf.1 c hmem).trans h0
    have hnil : c.values = [] := List.eq_nil_of_length_eq_zero hlen
    show (outlierStat c.numCells df.nRows).count = 0
    rw [Column.numCells, hnil]
    exact outlierStat_nil_count df.nRows

/-- C1 witness: the zero-row single-numeric-column table is well-formed,
has zero rows, and its outlier entry is defined with count 0 and NaN
percentage. -/
theorem analyser_operations_total_witness :
    dfZeroRows.WF
    ∧ dfZeroRows.nRows = 0
    ∧ ("n", OutlierInfo.mk 0 none) ∈ detect_outliers dfZeroRows
    ∧ (("n", OutlierInfo.mk 0 none) : String × OutlierInfo).2.count = 0
    ∧ (("n", OutlierInfo.mk 0 none) : String × OutlierInfo).2.percentage = none :=
  ⟨by decide, rfl, by with_unfolding_all decide,
    (analyser_operations_total dfZeroRows).2.2.2.2.2.2.2 (by decide) rfl _
      (by with_unfolding_all decide),
    ((analyser_operations_total dfZeroRows).2.2.2.2.2.2.1 rfl).1 _
      (by with_unfolding_all decide)⟩

/-- C5: the Analyser is pure. Its constructor retains a value equal to
the caller's table (the source stores `df.copy()` and no method ever
assigns to `self` or to the copy — `numerical_summary` writes only into
the fresh frame returned by `describe()`), so in the embedding every
query is a function of the analyser value: constructing twice from the
same table gives equal analysers, and calling any query twice on the
same instance gives identical results. -/
theorem analyser_queries_pure_idempotent (df : DataFrame) :
    (DataAnalyser.make df).df = df
    ∧ DataAnalyser.make df = DataAnalyser.make df
    ∧ basic_info (DataAnalyser.make df).df = basic_info (DataAnalyser.make df).df
    ∧ numerical_summary (DataAnalyser.make df).df = numerical_summary (DataAnalyser.make df).df
    ∧ categorical_summary (DataAnalyser.make df).df
        = categorical_summary (DataAnalyser.make df).df
    ∧ detect_outliers (DataAnalyser.make df).df = detect_outliers (DataAnalyser.make df).df :=
  ⟨rfl, rfl, rfl, rfl, rfl, rfl⟩

/-- C2: for a well-formed table the three classification name lists
computed at construction are pairwise disjoint, their union is exactly
the set of the table's columns, and membership in each list is decided
by the column's declared storage dtype alone. -/
theorem classification_partitions_columns (df : DataFrame) (hwf : df.WF) :
    ((DataAnalyser.make df).numeric_cols.Disjoint (DataAnalyser.make df).categorical_cols
      ∧ (DataAnalyser.make df).numeric_cols.Disjoint (DataAnalyser.make df).datetime_cols
      ∧ (DataAnalyser.make df).categorical_cols.Disjoint (DataAnalyser.make df).datetime_cols)
    ∧ (∀ n : String,
        (n ∈ (DataAnalyser.make df).numeric_cols
          ∨ n ∈ (DataAnalyser.make df).categorical_cols
          ∨ n ∈ (DataAnalyser.make df).datetime_cols)
        ↔ n ∈ (basic_info df).columns)
    ∧ (∀ n : String, n ∈ (DataAnalyser.make df).numeric_cols
        ↔ ∃ c ∈ df.cols, c.dtype = DType.numeric ∧ c.name = n)
    ∧ (∀ n : String, n ∈ (DataAnalyser.make df).categorical_cols
        ↔ ∃ c ∈ df.cols, c.dtype = DType.object ∧ c.name = n)
    ∧ (∀ n : String, n ∈ (DataAnalyser.make df).datetime_cols
        ↔ ∃ c ∈ df.cols, c.dtype = DType.datetime64 ∧ c.name = n) := by
  have hnum := fun n => mem_dtype_names df DType.numeric n
  have hobj := fun n => mem_dtype_names df DType.object n
  have hdt := fun n => mem_dtype_names df DType.datetime64 n
  have hdisj : ∀ d1 d2 : DType, d1 ≠ d2 →
      ((df.cols.filter (fun c => c.dtype = d1)).map Column.name).Disjoint
        ((df.cols.filter (fun c => c.dtype = d2)).map Column.name) := by
    intro d1 d2 hne n h1 h2
    obtain ⟨c1, hc1, hdt1, hn1⟩ := (mem_dtype_names df d1 n).mp h1
    obtain ⟨c2, hc2, hdt2, hn2⟩ := (mem_dtype_names df d2 n).mp h2
    have heq : c1 = c2 :=
      List.inj_on_of_nodup_map hwf.2 hc1 hc2 (hn1.trans hn2.symm)
    exact hne (hdt1 ▸ heq ▸ hdt2)
  refine ⟨⟨hdisj _ _ (by simp), hdisj _ _ (by simp), hdisj _ _ (by simp)⟩, ?_, hnum, hobj, hdt⟩
  intro n
  constructor
  · rintro (h | h | h)
    · obtain ⟨c, hc, _, hn⟩ := (hnum n).mp h
      exact List.mem_map.mpr ⟨c, hc, hn⟩
    · obtain ⟨c, hc, _, hn⟩ := (hobj n).mp h
      exact List.mem_map.mpr ⟨c, hc, hn⟩
    · obtain ⟨c, hc, _, hn⟩ := (hdt n).mp h
      exact List.mem_map.mpr ⟨c, hc, hn⟩
  · intro h
    obtain ⟨c, hc, hn⟩ := List.mem_map.mp h
    cases hd : c.dtype with
    | numeric => exact Or.inl ((hnum n).mpr ⟨c, hc, hd, hn⟩)
    | object => exact Or.inr (Or.inl ((hobj n).mpr ⟨c, hc, hd, hn⟩))
    | datetime64 => exact Or.inr (Or.inr ((hdt n).mpr ⟨c, hc, hd, hn⟩))

/-- C2 witness: the mixed three-column table is well-formed and its
numeric classification contains exactly the numeric-dtype column. -/
theorem classification_partitions_columns_witness :
    dfMixed.WF
    ∧ (("age" ∈ (DataAnalyser.make dfMixed).numeric_cols
        ∨ "age" ∈ (DataAnalyser.make dfMixed).categorical_cols
        ∨ "age" ∈ (DataAnalyser.make dfMixed).datetime_cols)
      ↔ "age" ∈ (basic_info dfMixed).columns) :=
  ⟨by decide, (classification_partitions_columns dfMixed (by decide)).2.1 "age"⟩

/-- When both quartiles are defined, the per-column outlier statistic
is the strict-fence count over the non-null values and its percentage
over the row count. -/
theorem outlierStat_eq_of_quantiles (cells : List (Option ℚ)) (n : Nat) (Q1 Q3 : ℚ)
    (h1 : quantile (cells.filterMap id) (1/4) = some Q1)
    (h3 : quantile (cells.filterMap id) (3/4) = some Q3) :
    outlierStat cells n = OutlierInfo.mk
      ((cells.filterMap id).countP
        (fun v => decide (v < Q1 - 3/2 * (Q3 - Q1)) || decide (v > Q3 + 3/2 * (Q3 - Q1))))
      (if n = 0 then none
       else some ((((cells.filterMap id).countP
          (fun v => decide (v < Q1 - 3/2 * (Q3 - Q1)) || decide (v > Q3 + 3/2 * (Q3 - Q1)))) : ℚ)
            / (n : ℚ) * 100)) := by
  unfold outlierStat fences
  rw [h1, h3]
  simp only [countP_elim_filterMap]

/-- C3: for every numeric column whose quartiles are defined,
`detect_outliers` reports exactly the count of values strictly outside
`[Q1 - 1.5*IQR, Q3 + 1.5*IQR]` together with that count as a
percentage of the row count; concretely, the column `[1..9, 100]`
yields count 1 (> 0, at 10%) and `[1..10]` yields count 0. -/
theorem detect_outliers_iqr_fences :
    (∀ df : DataFrame, ∀ c ∈ numericCols df, ∀ Q1 Q3 : ℚ,
      quantile (c.numCells.filterMap id) (1/4) = some Q1 →
      quantile (c.numCells.filterMap id) (3/4) = some Q3 →
      (c.name, OutlierInfo.mk
          ((c.numCells.filterMap id).countP
            (fun v => decide (v < Q1 - 3/2 * (Q3 - Q1)) || decide (v > Q3 + 3/2 * (Q3 - Q1))))
          (if df.nRows = 0 then none
           else some ((((c.numCells.filterMap id).countP
              (fun v => decide (v < Q1 - 3/2 * (Q3 - Q1)) || decide (v > Q3 + 3/2 * (Q3 - Q1)))) : ℚ)
                / (df.nRows : ℚ) * 100)))
        ∈ detect_outliers df)
    ∧ detect_outliers dfOutliers = [("with_outliers", OutlierInfo.mk 1 (some 10))]
    ∧ detect_outliers dfNormal = [("normal_data", OutlierInfo.mk 0 (some 0))] := by
  refine ⟨?_, by with_unfolding_all decide, by with_unfolding_all decide⟩
  intro df c hc Q1 Q3 h1 h3
  refine List.mem_map.mpr ⟨c, hc, ?_⟩
  rw [outlierStat_eq_of_quantiles c.numCells df.nRows Q1 Q3 h1 h3]

/-- C3 witness: the fence characterisation applied to the `[1..10]`
column, whose quartiles are 13/4 and 31/4. -/
theorem detect_outliers_iqr_fences_witness :
    quantile (colNormal.numCells.filterMap id) (1/4) = some (13/4)
    ∧ quantile (colNormal.numCells.filterMap id) (3/4) = some (31/4)
    ∧ ("normal_data", OutlierInfo.mk
        ((colNormal.numCells.filterMap id).countP
          (fun v => decide (v < 13/4 - 3/2 * (31/4 - 13/4)) || decide (v > 31/4 + 3/2 * (31/4 - 13/4))))
        (if dfNormal.nRows = 0 then none
         else some ((((colNormal.numCells.filterMap id).countP
            (fun v => decide (v < 13/4 - 3/2 * (31/4 - 13/4)) || decide (v > 31/4 + 3/2 * (31/4 - 13/4)))) : ℚ)
              / (dfNormal.nRows : ℚ) * 100)))
      ∈ detect_outliers dfNormal :=
  ⟨by with_unfolding_all decide, by with_unfolding_all decide,
    detect_outliers_iqr_fences.1 dfNormal colNormal (by with_unfolding_all decide) (13/4) (31/4)
      (by with_unfolding_all decide) (by with_unfolding_all decide)⟩

/-- C4: when both quartiles of a numeric column coincide (IQR = 0), the
fences collapse to that common value and `detect_outliers` counts
exactly the values different from it — the literal consequence of the
formula, with no special-case guard in the code. -/
theorem zero_iqr_flags_all_different (df : DataFrame) :
    ∀ c ∈ numericCols df, ∀ q : ℚ,
      quantile (c.numCells.filterMap id) (1/4) = some q →
      quantile (c.numCells.filterMap id) (3/4) = some q →
      (c.name, OutlierInfo.mk
          ((c.numCells.filterMap id).countP (fun v => decide (v ≠ q)))
          (if df.nRows = 0 then none
           else some ((((c.numCells.filterMap id).countP (fun v => decide (v ≠ q))) : ℚ)
              / (df.nRows : ℚ) * 100)))
        ∈ detect_outliers df := by
  intro c hc q h1 h3
  refine List.mem_map.mpr ⟨c, hc, ?_⟩
  have hcount : (c.numCells.filterMap id).countP
        (fun v => decide (v < q - 3/2 * (q - q)) || decide (v > q + 3/2 * (q - q)))
      = (c.numCells.filterMap id).countP (fun v => decide (v ≠ q)) := by
    refine List.countP_congr ?_
    intro v _
    simp [sub_self, lt_or_lt_iff_ne]
  rw [outlierStat_eq_of_quantiles c.numCells df.nRows q q h1 h3, hcount]

/-- C4 witness: the column `[5,5,5,5,7]` has both quartiles equal to 5
and its single non-5 value is flagged. -/
theorem zero_iqr_flags_all_different_witness :
    quantile (colConst.numCells.filterMap id) (1/4) = some 5
    ∧ quantile (colConst.numCells.filterMap id) (3/4) = some 5
    ∧ ("c", OutlierInfo.mk
        ((colConst.numCells.filterMap id).countP (fun v => decide (v ≠ 5)))
        (if dfConst.nRows = 0 then none
         else some ((((colConst.numCells.filterMap id).countP (fun v => decide (v ≠ 5))) : ℚ)
            / (dfConst.nRows : ℚ) * 100)))
      ∈ detect_outliers dfConst :=
  ⟨by with_unfolding_all decide, by with_unfolding_all decide,
    zero_iqr_flags_all_different dfConst colConst (by with_unfolding_all decide) 5
      (by with_unfolding_all decide) (by with_unfolding_all decide)⟩

/-- C6: the `create_visualizations` mapping contains the key
`"correlation"` iff the table has at least 2 numeric columns, the key
`"distributions"` iff it has at least 1, and no other key. -/
theorem create_visualizations_keys_exact (df : DataFrame) (corrImg distImg : String) :
    (("correlation" ∈ (create_visualizations (DataAnalyser.make df) corrImg distImg).map Prod.fst)
        ↔ 2 ≤ (numericCols df).length)
    ∧ (("distributions" ∈ (create_visualizations (DataAnalyser.make df) corrImg distImg).map Prod.fst)
        ↔ 1 ≤ (numericCols df).length)
    ∧ (∀ k ∈ (create_visualizations (DataAnalyser.make df) corrImg distImg).map Prod.fst,
        k = "correlation" ∨ k = "distributions") := by
  have hlen : (DataAnalyser.make df).numeric_cols.length = (numericCols df).length :=
    List.length_map _ _
  by_cases h2 : 1 < (DataAnalyser.make df).numeric_cols.length
  · have h1 : (DataAnalyser.make df).numeric_cols ≠ [] := by
      intro h
      rw [h] at h2
      simp at h2
    refine ⟨?_, ?_, ?_⟩
    · simp only [create_visualizations, h2, h1, if_true, ne_eq, not_false_iff, ite_true]
      simp only [List.map_append, List.map_cons, List.map_nil, List.mem_append,
        List.mem_singleton]
      constructor
      · intro _
        omega
      · intro _
        trivial
    · simp only [create_visualizations, h2, h1, if_true, ne_eq, not_false_iff, ite_true]
      simp only [List.map_append, List.map_cons, List.map_nil, List.mem_append,
        List.mem_singleton]
      constructor
      · intro _
        omega
      · intro _
        trivial
    · simp only [create_visualizations, h2, h1, if_true, ne_eq, not_false_iff, ite_true]
      intro k hk
      simp only [List.map_append, List.map_cons, List.map_nil, List.mem_append,
        List.mem_singleton] at hk
      tauto
  · by_cases h1 : (DataAnalyser.make df).numeric_cols = []
    · have hz : (numericCols df).length = 0 := by
        rw [← hlen, h1]
        rfl
      refine ⟨?_, ?_, ?_⟩
      · simp only [create_visualizations, h2, h1, if_false, ne_eq, not_true, ite_false]
        simp [hz]
      · simp only [create_visualizations, h2, h1, if_false, ne_eq, not_true, ite_false]
        simp [hz]
      · simp only [create_visualizations, h2, h1, if_false, ne_eq, not_true, ite_false]
        simp
    · have hpos : 0 < (numericCols df).length := by
        rw [← hlen]
        exact List.length_pos.mpr h1
      refine ⟨?_, ?_, ?_⟩
      · simp only [create_visualizations, h2, h1, if_false, ne_eq, not_false_iff, ite_true]
        simp only [List.nil_append, List.map_cons, List.map_nil, List.mem_singleton]
        constructor
        · intro hcd
          exact absurd hcd (by decide)
        · intro hge
          omega
      · simp only [create_visualizations, h2, h1, if_false, ne_eq, not_false_iff, ite_true]
        simp only [List.nil_append, List.map_cons, List.map_nil, List.mem_singleton]
        constructor
        · intro _
          omega
        · intro _
          trivial
      · simp only [create_visualizations, h2, h1, if_false, ne_eq, not_false_iff, ite_true]
        intro k hk
        simp only [List.nil_append, List.map_cons, List.map_nil, List.mem_singleton] at hk
        exact Or.inr hk

/-- C7: the HTML document contains, as literal text, the renderings of
the four `basic_info` metrics — the row count, missing-value total and
duplicate-row count via the source's comma-grouped decimal format
`:,` (identical to the plain decimal below 1000), and the column count
as plain decimal. -/
theorem report_contains_basic_counts (df : DataFrame) (ts : Timestamp)
    (corrImg distImg : String) :
    ContainsSub (generate_html_content df ts corrImg distImg)
      (formatComma (basic_info df).shape.1)
    ∧ ContainsSub (generate_html_content df ts corrImg distImg)
      (toString (basic_info df).shape.2)
    ∧ ContainsSub (generate_html_content df ts corrImg distImg)
      (formatComma (totalMissing (basic_info df)))
    ∧ ContainsSub (generate_html_content df ts corrImg distImg)
      (formatComma (basic_info df).duplicate_rows) := by
  refine ⟨⟨htmlHeader ts ++ ovA,
      ovB ++ toString (basic_info df).shape.2 ++ ovC ++ formatComma (totalMissing (basic_info df))
        ++ ovD ++ formatComma (basic_info df).duplicate_rows ++ ovE
        ++ warningBlock (basic_info df) ++ numericBlock (numerical_summary df)
        ++ categoricalBlock (categorical_summary df) ++ outlierBlock (detect_outliers df)
        ++ plotsBlock (create_visualizations (DataAnalyser.make df) corrImg distImg)
        ++ htmlFooter, ?_⟩,
    ⟨htmlHeader ts ++ ovA ++ formatComma (basic_info df).shape.1 ++ ovB,
      ovC ++ formatComma (totalMissing (basic_info df))
        ++ ovD ++ formatComma (basic_info df).duplicate_rows ++ ovE
        ++ warningBlock (basic_info df) ++ numericBlock (numerical_summary df)
        ++ categoricalBlock (categorical_summary df) ++ outlierBlock (detect_outliers df)
        ++ plotsBlock (create_visualizations (DataAnalyser.make df) corrImg distImg)
        ++ htmlFooter, ?_⟩,
    ⟨htmlHeader ts ++ ovA ++ formatComma (basic_info df).shape.1 ++ ovB
        ++ toString (basic_info df).shape.2 ++ ovC,
      ovD ++ formatComma (basic_info df).duplicate_rows ++ ovE
        ++ warningBlock (basic_info df) ++ numericBlock (numerical_summary df)
        ++ categoricalBlock (categorical_summary df) ++ outlierBlock (detect_outliers df)
        ++ plotsBlock (create_visualizations (DataAnalyser.make df) corrImg distImg)
        ++ htmlFooter, ?_⟩,
    ⟨htmlHeader ts ++ ovA ++ formatComma (basic_info df).shape.1 ++ ovB
        ++ toString (basic_info df).shape.2 ++ ovC ++ formatComma (totalMissing (basic_info df))
        ++ ovD,
      ovE ++ warningBlock (basic_info df) ++ numericBlock (numerical_summary df)
        ++ categoricalBlock (categorical_summary df) ++ outlierBlock (detect_outliers df)
        ++ plotsBlock (create_visualizations (DataAnalyser.make df) corrImg distImg)
        ++ htmlFooter, ?_⟩⟩ <;>
    simp only [generate_html_content, renderReport, overviewBlock, String.append_assoc]

/-- C8 counterexample: the document embeds the `datetime.now()`
readings (report title and generated-at line), so two invocations over
analysers of the same table at different clock readings produce
different HTML contents — here on the empty table, one minute apart. -/
theorem report_depends_on_generation_time :
    generate_html_content dfEmpty tsA "" "" ≠ generate_html_content dfEmpty tsB "" "" := by
  intro h
  exact absurd (congrArg (fun s => s.toList.getD (hdrPre.length + 15) ' ') h)
    (by with_unfolding_all decide)

/-- C8 as amended: the document content is a deterministic pure
function of the Analyser's outputs (the four query results and the
classification attribute) together with the clock readings and the two
rendered figure payloads; two invocations agreeing on all of those —
in particular any two over analysers of the same table at the same
clock reading — produce identical HTML contents. -/
theorem report_function_of_analyser_outputs (df1 df2 : DataFrame) (ts : Timestamp)
    (corrImg distImg : String)
    (hbi : basic_info df1 = basic_info df2)
    (hns : numerical_summary df1 = numerical_summary df2)
    (hcs : categorical_summary df1 = categorical_summary df2)
    (hout : detect_outliers df1 = detect_outliers df2)
    (hnum : (DataAnalyser.make df1).numeric_cols = (DataAnalyser.make df2).numeric_cols) :
    generate_html_content df1 ts corrImg distImg = generate_html_content df2 ts corrImg distImg := by
  unfold generate_html_content create_visualizations
  rw [hbi, hns, hcs, hout, hnum]

/-- C8 witness: two tables that differ in a datetime cell value have
identical analyser outputs, hence identical reports at the same clock
reading. -/
theorem report_function_of_analyser_outputs_witness :
    generate_html_content dfTimeA tsA "img1" "img2"
      = generate_html_content dfTimeB tsA "img1" "img2" :=
  report_function_of_analyser_outputs dfTimeA dfTimeB tsA "img1" "img2"
    (by decide) (by decide) (by decide) (by decide) (by decide)

/-- C9: calling `generate_html_report` with an explicit output path
that has no directory component fails with `FileNotFoundError` before
anything is produced, because `os.makedirs` is invoked on the empty
result of `os.path.dirname`; with a non-empty directory prefix the
report is produced at the given path. -/
theorem bare_filename_output_path_fails (df : DataFrame) (ts : Timestamp)
    (corrImg distImg : String) (name : String)
    (h : ∀ ch ∈ name.toList, ch ≠ '/') :
    generate_html_report df ts corrImg distImg (some name) = Except.error "FileNotFoundError"
    ∧ (∀ p : String, posixDirname p ≠ "" →
        generate_html_report df ts corrImg distImg (some p)
          = Except.ok (p, generate_html_content df ts corrImg distImg)) := by
  constructor
  · have hdrop : name.toList.reverse.dropWhile (fun c => decide (c ≠ '/')) = [] := by
      refine List.dropWhile_eq_nil_iff.mpr ?_
      intro x hx
      exact decide_eq_true (h x (List.mem_reverse.mp hx))
    have hdir : posixDirname name = "" := by
      unfold posixDirname
      rw [hdrop]
      rfl
    unfold generate_html_report
    simp [hdir]
  · intro p hp
    unfold generate_html_report
    simp [hp]

/-- C9 witness: the bare filename `report.html` is rejected. -/
theorem bare_filename_output_path_fails_witness :
    (∀ ch ∈ "report.html".toList, ch ≠ '/')
    ∧ generate_html_report dfEmpty tsA "" "" (some "report.html")
        = Except.error "FileNotFoundError" :=
  ⟨by decide,
    (bare_filename_output_path_fails dfEmpty tsA "" "" "report.html" (by decide)).1⟩

/-- C10: a null cell is never counted as an outlier — the count equals
a count over the non-null values only, and is bounded by their number —
while the reported percentage divides by the full table row count
(`len(df)`, nulls included), as passed by `detect_outliers`. -/
theorem outliers_ignore_nulls_percentage_over_all_rows (df : DataFrame) :
    detect_outliers df = (numericCols df).map (fun c => (c.name, outlierStat c.numCells df.nRows))
    ∧ (∀ (cells : List (Option ℚ)) (n : Nat) (lb ub : ℚ),
        fences (cells.filterMap id) = some (lb, ub) →
        (outlierStat cells n).count
          = (cells.filterMap id).countP (fun v => decide (v < lb) || decide (v > ub)))
    ∧ (∀ (cells : List (Option ℚ)) (n : Nat),
        (outlierStat cells n).count ≤ (cells.filterMap id).length)
    ∧ (∀ (cells : List (Option ℚ)) (n : Nat), 0 < n →
        (outlierStat cells n).percentage
          = some (((outlierStat cells n).count : ℚ) / (n : ℚ) * 100)) := by
  refine ⟨rfl, ?_, ?_, ?_⟩
  · intro cells n lb ub hf
    unfold outlierStat
    rw [hf]
    simp only [countP_elim_filterMap]
  · intro cells n
    show (outlierStat cells n).count ≤ _
    unfold outlierStat
    rcases hf : fences (cells.filterMap id) with _ | ⟨lb, ub⟩
    · simp
    · simp only [countP_elim_filterMap]
      exact List.countP_le_length _
  · intro cells n hn
    have hn0 : ¬ n = 0 := Nat.pos_iff_ne_zero.mp hn
    unfold outlierStat
    simp [hn0]

/-- C10 witness: on cells `[1,2,3,4,null]` with 5 table rows, the count
is bounded by the 4 non-null values and the percentage divides by 5. -/
theorem outliers_ignore_nulls_percentage_over_all_rows_witness :
    (outlierStat cellsWithNull 5).count ≤ (cellsWithNull.filterMap id).length
    ∧ (0 : Nat) < 5
    ∧ (outlierStat cellsWithNull 5).percentage
        = some (((outlierStat cellsWithNull 5).count : ℚ) / (5 : ℚ) * 100) :=
  ⟨(outliers_ignore_nulls_percentage_over_all_rows dfEmpty).2.2.1 cellsWithNull 5,
    by decide,
    (outliers_ignore_nulls_percentage_over_all_rows dfEmpty).2.2.2 cellsWithNull 5
      (by decide)⟩
